import Mathlib

/-!
Shallow embedding of `src/pdf_compressor.py`.

The program is a thin orchestration layer around an external Ghostscript
process.  The embedding models the environment explicitly:

* the filesystem is a pair of functions: existence of a path and size in
  bytes of a path (`os.path.exists`, `os.path.getsize`);
* the Ghostscript engine is an oracle: the outcome of the `--version`
  query (`VersionOutcome`) and, per quality preset, the outcome of a
  compression invocation (`SubprocOutcome`); a successful invocation
  (exit code 0) writes the output file with a given byte size, a failing
  one (`CalledProcessError` or any other exception) writes nothing;
* the single output path (`<stem>_compressed.pdf`, derived once from the
  input) is modeled as one disk cell `Option Nat`: `none` when no file is
  present there, `some n` when a file of `n` bytes is present;
* sizes in MB are rationals (`bytes / (1024 * 1024)`), mirroring the
  Python float division in `get_file_size`; the `ZeroDivisionError` that
  Python raises when the reduction percentage divides by a zero original
  size is modeled by an explicit `crashed` result produced exactly when
  the divisor is zero at the point of the division;
* console printing is ignored except for the final advisory hints, which
  are carried in the `exhausted` result;
* `get_gs_binary` (OS probing for the binary path) is kept abstract as a
  plain string parameter of the command builder: no claim depends on the
  probing, only on the command built around it.

`main` returns its result together with the final disk cell and the list
of subprocess-related events in order (`versionQuery`, `compressCall`,
`removeFile`), so that temporal claims about what was invoked and when
files were deleted can be stated.
-/

namespace PdfCompressor

/-- Python `str.lower` restricted to ASCII (sufficient for the `.pdf`
extension test): lowercase every character. -/
def pyLower (s : String) : String := ⟨s.data.map Char.toLower⟩

/-- Python `str.endswith`: the characters of `suf` are a suffix of the
characters of `s`. -/
def pyEndswith (s suf : String) : Bool := List.isSuffixOf suf.data s.data

/-- Python `str.startswith`: the characters of `pre` are a prefix of the
characters of `s`. -/
def pyStartswith (s pre : String) : Bool := List.isPrefixOf pre.data s.data

/-- Python `str.strip` with no argument: drop leading and trailing
whitespace. -/
def pyStrip (s : String) : String :=
  ⟨((s.data.dropWhile Char.isWhitespace).reverse.dropWhile Char.isWhitespace).reverse⟩

/-- `check_pdf` (src lines 6-10): the path must exist on the filesystem and
its lowercased form must end with `.pdf`. -/
def check_pdf (fsExists : String → Bool) (file_path : String) : Bool :=
  if !(fsExists file_path) then false
  else pyEndswith (pyLower file_path) ".pdf"

/-- `get_file_size` (src lines 12-14): size in MB, `getsize(p) / (1024*1024)`. -/
def get_file_size (fsSizeBytes : String → Nat) (file_path : String) : ℚ :=
  (fsSizeBytes file_path : ℚ) / (1024 * 1024)

/-- Outcome of running `[gs_binary, --version]` (src lines 32-37):
either the process is not found (`FileNotFoundError`), or some other
exception is raised, or the run completes and yields a stdout string
(a non-zero exit does not raise here since `check=True` is not passed,
so any completed run is covered by `completed`). -/
inductive VersionOutcome where
  | notFound
  | exn (msg : String)
  | completed (stdout : String)
deriving DecidableEq

/-- Whether the version query actually started an engine process. -/
def versionProcessStarted : VersionOutcome → Bool
  | .notFound => false
  | .exn _ => false
  | .completed _ => true

/-- `check_ghostscript` (src lines 30-59): `True` exactly when the query
completes and the stripped stdout starts with `10.04`; `FileNotFoundError`,
a bad version, and any other exception all yield `False`. -/
def check_ghostscript : VersionOutcome → Bool
  | .notFound => false
  | .exn _ => false
  | .completed s => pyStartswith (pyStrip s) "10.04"

/-- The `quality_settings` dict of `compress_pdf` (src lines 69-73). -/
def quality_settings : List (String × String) :=
  [("printer", "/printer"), ("ebook", "/ebook"), ("screen", "/screen")]

/-- `quality_settings.get(quality, '/printer')` (src line 83). -/
def qualitySetting (quality : String) : String :=
  ((quality_settings.lookup quality).getD "/printer")

/-- The full Ghostscript command list built by `compress_pdf`
(src lines 76-103).  `'{}'.format x` is string concatenation. -/
def gs_command (gs_binary input_path output_path quality : String) :
    List String :=
  [ gs_binary
  , "-dNOPAUSE"
  , "-dBATCH"
  , "-dQUIET"
  , "-sDEVICE=pdfwrite"
  , "-dCompatibilityLevel=1.7"
  , "-dPDFSETTINGS=" ++ qualitySetting quality
  , "-dMaxSubsetPct=100"
  , "-dSubsetFonts=true"
  , "-dEmbedAllFonts=true"
  , "-dAutoRotatePages=/None"
  , "-dColorImageDownsampleType=/Bicubic"
  , "-dColorImageResolution=300"
  , "-dGrayImageDownsampleType=/Bicubic"
  , "-dGrayImageResolution=300"
  , "-dMonoImageDownsampleType=/Bicubic"
  , "-dMonoImageResolution=300"
  , "-dDownsampleColorImages=false"
  , "-dDownsampleGrayImages=false"
  , "-dDownsampleMonoImages=false"
  , "-dColorConversionStrategy=/LeaveColorUnchanged"
  , "-dAutoFilterColorImages=false"
  , "-dAutoFilterGrayImages=false"
  , "-dCompressPages=true"
  , "-sOutputFile=" ++ output_path
  , input_path ]

/-- Outcome of one blocking compression invocation (src line 106):
exit code 0 writing `outBytes` bytes at the output path, or a
`CalledProcessError` (non-zero exit, carrying the diagnostic stream), or
any other exception.  A failing invocation is modeled as writing nothing. -/
inductive SubprocOutcome where
  | exit0 (outBytes : Nat)
  | exitNonzero (stderr : String)
  | exn (msg : String)
deriving DecidableEq

/-- Engine behavior for compression runs: per quality preset, the outcome
of the invocation. -/
def Engine : Type := String → SubprocOutcome

/-- `compress_pdf` return value (src lines 105-113): `True` on exit 0,
`False` on `CalledProcessError` or any other exception. -/
def compress_pdf (eng : Engine) (quality : String) : Bool :=
  match eng quality with
  | .exit0 _ => true
  | .exitNonzero _ => false
  | .exn _ => false

/-- The ordered preset list `quality_levels` of `main` (src line 138). -/
def quality_levels : List String := ["printer", "ebook", "screen"]

/-- The advisory hints printed when no preset shrinks the file
(src lines 160-164). -/
def exhaustionHints : List String :=
  [ "El PDF ya está altamente optimizado"
  , "El PDF contiene principalmente texto sin imágenes"
  , "Se utilizó previamente otra herramienta de compresión" ]

/-- Result of a run of `main`. -/
inductive MainResult where
  | usageError
  | engineCheckFailed
  | invalidInput
  | accepted (quality : String) (compressedBytes : Nat) (reduction : ℚ)
  | exhausted (hints : List String)
  | crashed
deriving DecidableEq

/-- Record of one iteration of the fallback loop: the preset tried, the
disk cell at the output path when the attempt began, the engine outcome,
and whether `os.remove` ran on the output file afterwards. -/
structure Attempt where
  quality : String
  diskAtStart : Option Nat
  outcome : SubprocOutcome
  removed : Bool
deriving DecidableEq

/-- Result, final disk cell and attempt trace of the fallback loop. -/
structure LoopOut where
  result : MainResult
  disk : Option Nat
  attempts : List Attempt
deriving DecidableEq

/-- The fallback loop of `main` (src lines 141-157), over a preset list
and the current disk cell at the output path.  On exit 0 the engine has
written `n` bytes there; `compressed_size` is read back from the file;
the reduction percentage divides by `original_size` before the
acceptance test, so a zero original size crashes (`ZeroDivisionError`)
right there; acceptance stops the loop keeping the file; rejection
removes the file and continues; a driver failure continues with the disk
unchanged. -/
def runLoop (eng : Engine) (original_size : ℚ) :
    List String → Option Nat → LoopOut
  | [], disk => ⟨.exhausted exhaustionHints, disk, []⟩
  | quality :: rest, disk =>
    match eng quality with
    | .exit0 n =>
      let compressed_size : ℚ := (n : ℚ) / (1024 * 1024)
      if original_size = 0 then
        ⟨.crashed, some n, [⟨quality, disk, .exit0 n, false⟩]⟩
      else
        let reduction := (original_size - compressed_size) / original_size * 100
        if compressed_size < original_size then
          ⟨.accepted quality n reduction, some n, [⟨quality, disk, .exit0 n, false⟩]⟩
        else
          let r := runLoop eng original_size rest none
          ⟨r.result, r.disk, ⟨quality, disk, .exit0 n, true⟩ :: r.attempts⟩
    | .exitNonzero e =>
      let r := runLoop eng original_size rest disk
      ⟨r.result, r.disk, ⟨quality, disk, .exitNonzero e, false⟩ :: r.attempts⟩
    | .exn m =>
      let r := runLoop eng original_size rest disk
      ⟨r.result, r.disk, ⟨quality, disk, .exn m, false⟩ :: r.attempts⟩

/-- Subprocess-related events of a run, in order: the engine version
query, a compression invocation at a preset, a deletion of the output
file. -/
inductive Event where
  | versionQuery
  | compressCall (quality : String)
  | removeFile
deriving DecidableEq

/-- Events produced by one loop attempt. -/
def attemptEvents (a : Attempt) : List Event :=
  Event.compressCall a.quality :: (if a.removed then [Event.removeFile] else [])

/-- The environment of one invocation: `sys.argv`, the filesystem, and
the engine oracle.  `initialOutFile` is the disk cell at the output path
when the run starts. -/
structure Env where
  argv : List String
  fsExists : String → Bool
  fsSizeBytes : String → Nat
  versionOutcome : VersionOutcome
  engine : Engine
  initialOutFile : Option Nat

/-- `sys.argv[1]` (src line 124), read after the arity check. -/
def inputArg (env : Env) : String := env.argv.getD 1 ""

/-- Result, final disk cell and subprocess event trace of a run. -/
structure RunOutcome where
  result : MainResult
  disk : Option Nat
  events : List Event
deriving DecidableEq

/-- `main` (src lines 115-164): arity check, then `check_ghostscript`
(which performs the version-query invocation), then `check_pdf` on the
input, then the fallback loop over `quality_levels`. -/
def main (env : Env) : RunOutcome :=
  if env.argv.length ≠ 2 then ⟨.usageError, env.initialOutFile, []⟩
  else if check_ghostscript env.versionOutcome = false then
    ⟨.engineCheckFailed, env.initialOutFile, [Event.versionQuery]⟩
  else if check_pdf env.fsExists (inputArg env) = false then
    ⟨.invalidInput, env.initialOutFile, [Event.versionQuery]⟩
  else
    let original_size := get_file_size env.fsSizeBytes (inputArg env)
    let out := runLoop env.engine original_size quality_levels env.initialOutFile
    ⟨out.result, out.disk,
      Event.versionQuery :: (out.attempts.map attemptEvents).flatten⟩

/-! Spec-side characterizations (from the spec's words, for comparison
with the loop embedded from the source). -/

/-- A preset shrinks the file: the invocation succeeds and the output is
strictly smaller (in MB) than the original. -/
def shrinks (eng : Engine) (original_size : ℚ) (q : String) : Bool :=
  match eng q with
  | .exit0 n => decide ((n : ℚ) / (1024 * 1024) < original_size)
  | .exitNonzero _ => false
  | .exn _ => false

/-- The presets a first-success fallback is expected to try: everything
up to and including the first one satisfying `p`. -/
def triedUntil (p : String → Bool) : List String → List String
  | [] => []
  | q :: rest => if p q then [q] else q :: triedUntil p rest

/-- The preset a `MainResult` accepted, when it accepted one. -/
def acceptedQ : MainResult → Option String
  | .accepted q _ _ => some q
  | _ => none

/-! Helper lemmas about the fallback loop. -/

lemma compress_pdf_true_iff (eng : Engine) (q : String) :
    compress_pdf eng q = true ↔ ∃ n, eng q = .exit0 n := by
  unfold compress_pdf
  cases h : eng q <;> simp

lemma compress_pdf_false_iff (eng : Engine) (q : String) :
    compress_pdf eng q = false ↔
      (∃ e, eng q = .exitNonzero e) ∨ (∃ m, eng q = .exn m) := by
  unfold compress_pdf
  cases h : eng q <;> simp

lemma runLoop_nil (eng : Engine) (o : ℚ) (disk : Option Nat) :
    runLoop eng o [] disk = ⟨.exhausted exhaustionHints, disk, []⟩ := by
  rfl

lemma runLoop_acceptedQ (eng : Engine) (o : ℚ) (ho : o ≠ 0)
    (qs : List String) :
    ∀ disk, acceptedQ (runLoop eng o qs disk).result = qs.find? (shrinks eng o) := by
  induction qs with
  | nil => intro disk; simp [runLoop, acceptedQ]
  | cons q rest ih =>
    intro disk
    cases h : eng q with
    | exit0 n =>
      by_cases hlt : (n : ℚ) / (1024 * 1024) < o
      · simp [runLoop, h, ho, hlt, acceptedQ, List.find?_cons, shrinks]
      · simp [runLoop, h, ho, hlt, List.find?_cons, shrinks, ih none]
    | exitNonzero e =>
      simp [runLoop, h, List.find?_cons, shrinks, ih disk]
    | exn m =>
      simp [runLoop, h, List.find?_cons, shrinks, ih disk]

lemma runLoop_attempts_qualities (eng : Engine) (o : ℚ) (ho : o ≠ 0)
    (qs : List String) :
    ∀ disk, (runLoop eng o qs disk).attempts.map Attempt.quality
      = triedUntil (shrinks eng o) qs := by
  induction qs with
  | nil => intro disk; simp [runLoop, triedUntil]
  | cons q rest ih =>
    intro disk
    cases h : eng q with
    | exit0 n =>
      by_cases hlt : (n : ℚ) / (1024 * 1024) < o
      · simp [runLoop, h, ho, hlt, triedUntil, shrinks]
      · simp [runLoop, h, ho, hlt, triedUntil, shrinks, ih none]
    | exitNonzero e =>
      simp [runLoop, h, triedUntil, shrinks, ih disk]
    | exn m =>
      simp [runLoop, h, triedUntil, shrinks, ih disk]

lemma runLoop_exhausted (eng : Engine) (o : ℚ) (ho : o ≠ 0)
    (qs : List String) (hnone : qs.find? (shrinks eng o) = none) :
    (runLoop eng o qs none).result = .exhausted exhaustionHints
      ∧ (runLoop eng o qs none).disk = none := by
  induction qs with
  | nil => simp [runLoop]
  | cons q rest ih =>
    have hq : shrinks eng o q = false := by
      cases hq : shrinks eng o q
      · rfl
      · rw [List.find?_cons_of_pos _ hq] at hnone
        simp at hnone
    have hrest : rest.find? (shrinks eng o) = none := by
      rwa [List.find?_cons_of_neg _ (by simp [hq])] at hnone
    cases h : eng q with
    | exit0 n =>
      have hlt : ¬ ((n : ℚ) / (1024 * 1024) < o) := by
        intro hc
        rw [shrinks, h] at hq
        simp [hc] at hq
      simpa [runLoop, h, ho, hlt] using ih hrest
    | exitNonzero e =>
      simpa [runLoop, h] using ih hrest
    | exn m =>
      simpa [runLoop, h] using ih hrest

lemma runLoop_not_crashed (eng : Engine) (o : ℚ) (ho : o ≠ 0)
    (qs : List String) (disk : Option Nat) :
    (runLoop eng o qs disk).result ≠ .crashed := by
  induction qs generalizing disk with
  | nil => simp [runLoop]
  | cons q rest ih =>
    cases h : eng q with
    | exit0 n =>
      by_cases hlt : (n : ℚ) / (1024 * 1024) < o
      · simp [runLoop, h, ho, hlt]
      · simpa [runLoop, h, ho, hlt] using ih none
    | exitNonzero e =>
      simpa [runLoop, h] using ih disk
    | exn m =>
      simpa [runLoop, h] using ih disk

lemma runLoop_diskAtStart_none (eng : Engine) (o : ℚ)
    (qs : List String) :
    ∀ a ∈ (runLoop eng o qs none).attempts, a.diskAtStart = none := by
  induction qs with
  | nil => simp [runLoop]
  | cons q rest ih =>
    cases h : eng q with
    | exit0 n =>
      by_cases ho : o = 0
      · simp [runLoop, h, ho]
      · by_cases hlt : (n : ℚ) / (1024 * 1024) < o
        · simp [runLoop, h, ho, hlt]
        · intro a ha
          rw [runLoop] at ha
          simp [h, ho, hlt] at ha
          rcases ha with rfl | ha
          · rfl
          · exact ih a ha
    | exitNonzero e =>
      intro a ha
      rw [runLoop] at ha
      simp [h] at ha
      rcases ha with rfl | ha
      · rfl
      · exact ih a ha
    | exn m =>
      intro a ha
      rw [runLoop] at ha
      simp [h] at ha
      rcases ha with rfl | ha
      · rfl
      · exact ih a ha

lemma runLoop_rejected_removed (eng : Engine) (o : ℚ) (ho : o ≠ 0)
    (qs : List String) (disk : Option Nat) :
    ∀ a ∈ (runLoop eng o qs disk).attempts,
      ∀ n, a.outcome = .exit0 n → ¬ ((n : ℚ) / (1024 * 1024) < o) →
        a.removed = true := by
  induction qs generalizing disk with
  | nil => simp [runLoop]
  | cons q rest ih =>
    cases h : eng q with
    | exit0 k =>
      by_cases hlt : (k : ℚ) / (1024 * 1024) < o
      · intro a ha n hout hnlt
        rw [runLoop] at ha
        simp [h, ho, hlt] at ha
        subst ha
        simp at hout
        exact absurd hlt (hout ▸ hnlt)
      · intro a ha n hout hnlt
        rw [runLoop] at ha
        simp [h, ho, hlt] at ha
        rcases ha with rfl | ha
        · rfl
        · exact ih none a ha n hout hnlt
    | exitNonzero e =>
      intro a ha n hout hnlt
      rw [runLoop] at ha
      simp [h] at ha
      rcases ha with rfl | ha
      · simp at hout
      · exact ih disk a ha n hout hnlt
    | exn m =>
      intro a ha n hout hnlt
      rw [runLoop] at ha
      simp [h] at ha
      rcases ha with rfl | ha
      · simp at hout
      · exact ih disk a ha n hout hnlt

lemma runLoop_engine_congr (eng eng' : Engine) (o : ℚ)
    (qs : List String) (disk : Option Nat)
    (hagree : ∀ q ∈ qs, eng q = eng' q) :
    runLoop eng o qs disk = runLoop eng' o qs disk := by
  induction qs generalizing disk with
  | nil => rfl
  | cons q rest ih =>
    have hq : eng q = eng' q := hagree q (by simp)
    have hrest : ∀ p ∈ rest, eng p = eng' p := fun p hp => hagree p (by simp [hp])
    cases h : eng' q with
    | exit0 n =>
      by_cases ho : o = 0
      · simp [runLoop, hq, h, ho]
      · by_cases hlt : (n : ℚ) / (1024 * 1024) < o
        · simp [runLoop, hq, h, ho, hlt]
        · simp [runLoop, hq, h, ho, hlt, ih none hrest]
    | exitNonzero e =>
      simp [runLoop, hq, h, ih disk hrest]
    | exn m =>
      simp [runLoop, hq, h, ih disk hrest]

/-- The presets actually passed to a compression invocation, in order,
read off the event trace. -/
def calledPresets (events : List Event) : List String :=
  events.filterMap fun e => match e with
    | .compressCall q => some q
    | _ => none

lemma calledPresets_events (atts : List Attempt) :
    calledPresets (Event.versionQuery :: (atts.map attemptEvents).flatten)
      = atts.map Attempt.quality := by
  induction atts with
  | nil => rfl
  | cons a rest ih =>
    cases hr : a.removed <;>
      simpa [calledPresets, attemptEvents, hr] using ih

/-! Concrete environments used to instantiate the theorems: a 2 MiB
input `doc.pdf`, an engine producing a 3 MiB file at `printer` (to be
rejected), a 1 MiB file at `ebook` (to be accepted) and an empty file at
`screen`, with Ghostscript 10.04.0 installed. -/

def demoEng : Engine := fun q =>
  if q = "printer" then .exit0 3145728
  else if q = "ebook" then .exit0 1048576
  else if q = "screen" then .exit0 0
  else .exitNonzero "unknown preset"

/-- Same behavior as `demoEng` on the preset list, different outside it. -/
def demoEng2 : Engine := fun q =>
  if q = "printer" then .exit0 3145728
  else if q = "ebook" then .exit0 1048576
  else if q = "screen" then .exit0 0
  else .exn "different outside the preset list"

def demoEnv : Env :=
  { argv := ["pdf_compressor.py", "doc.pdf"]
  , fsExists := fun _ => true
  , fsSizeBytes := fun _ => 2097152
  , versionOutcome := .completed "10.04.0"
  , engine := demoEng
  , initialOutFile := none }

def demoEnv2 : Env := { demoEnv with engine := demoEng2 }

/-- Engine that fails at `printer` and `screen` and produces a too-large
5 MiB file at `ebook`. -/
def exhaustEng : Engine := fun q =>
  if q = "ebook" then .exit0 5242880 else .exitNonzero "gs error"

/-- Environment where no preset shrinks the 2 MiB input. -/
def exhaustEnv : Env :=
  { argv := ["pdf_compressor.py", "doc.pdf"]
  , fsExists := fun _ => true
  , fsSizeBytes := fun _ => 2097152
  , versionOutcome := .completed "10.04.0"
  , engine := exhaustEng
  , initialOutFile := none }

/-- Environment with Ghostscript 9.56.1 installed instead of 10.04. -/
def badVersionEnv : Env :=
  { argv := ["pdf_compressor.py", "doc.pdf"]
  , fsExists := fun _ => true
  , fsSizeBytes := fun _ => 2097152
  , versionOutcome := .completed "9.56.1"
  , engine := demoEng
  , initialOutFile := none }

/-- Environment with a missing input file `ghost.pdf` and Ghostscript
10.04.0 installed. -/
def ghostEnv : Env :=
  { argv := ["pdf_compressor.py", "ghost.pdf"]
  , fsExists := fun _ => false
  , fsSizeBytes := fun _ => 0
  , versionOutcome := .completed "10.04.0"
  , engine := fun _ => .exn "never reached"
  , initialOutFile := none }

/-- Environment with an existing zero-byte input file `empty.pdf` and an
engine that succeeds at every preset. -/
def zeroEnv : Env :=
  { argv := ["pdf_compressor.py", "empty.pdf"]
  , fsExists := fun _ => true
  , fsSizeBytes := fun _ => 0
  , versionOutcome := .completed "10.04.0"
  , engine := fun _ => .exit0 100
  , initialOutFile := none }

/-! Claim theorems. -/

/-- C7: `check_pdf` accepts a path iff the path exists on the filesystem
and its lowercased form ends with `.pdf` (extension-only, no content
inspection: the check reads nothing but the existence bit and the name);
when it rejects, `main` aborts with `invalidInput`. -/
theorem claim_C7 (env : Env)
    (h2 : env.argv.length = 2)
    (hgs : check_ghostscript env.versionOutcome = true)
    (hpdf : check_pdf env.fsExists (inputArg env) = false) :
    (∀ (fsExists : String → Bool) (p : String),
      check_pdf fsExists p = true ↔
        fsExists p = true ∧ pyEndswith (pyLower p) ".pdf" = true)
    ∧ (main env).result = .invalidInput := by
  constructor
  · intro fsExists p
    unfold check_pdf
    cases h : fsExists p <;> simp
  · simp [main, h2, hgs, hpdf]

theorem claim_C7_witness :
    (check_pdf (fun _ => true) "Doc.PDF" = true ↔
      (fun _ => true) "Doc.PDF" = true ∧ pyEndswith (pyLower "Doc.PDF") ".pdf" = true)
    ∧ (main ghostEnv).result = .invalidInput :=
  ⟨(claim_C7 ghostEnv (by decide) (by decide) (by decide)).1 (fun _ => true) "Doc.PDF",
   (claim_C7 ghostEnv (by decide) (by decide) (by decide)).2⟩

/-- C10: a quality string outside `printer`/`ebook`/`screen` is not
rejected by the driver: the settings lookup silently falls back to
`/printer`, the command built is the same as for `printer`, and the
driver's success is still determined solely by the engine outcome. -/
theorem claim_C10 (gs_binary input_path output_path quality : String)
    (eng : Engine) (hq : quality ∉ ["printer", "ebook", "screen"]) :
    qualitySetting quality = "/printer"
    ∧ gs_command gs_binary input_path output_path quality
        = gs_command gs_binary input_path output_path "printer"
    ∧ (compress_pdf eng quality = true ↔ ∃ n, eng quality = .exit0 n) := by
  have h1 : (quality == "printer") = false := by
    simp only [beq_eq_false_iff_ne, ne_eq]
    intro h
    exact hq (by simp [h])
  have h2 : (quality == "ebook") = false := by
    simp only [beq_eq_false_iff_ne, ne_eq]
    intro h
    exact hq (by simp [h])
  have h3 : (quality == "screen") = false := by
    simp only [beq_eq_false_iff_ne, ne_eq]
    intro h
    exact hq (by simp [h])
  have hset : qualitySetting quality = "/printer" := by
    simp [qualitySetting, quality_settings, List.lookup, h1, h2, h3]
  refine ⟨hset, ?_, compress_pdf_true_iff eng quality⟩
  unfold gs_command
  rw [hset]
  simp [qualitySetting, quality_settings, List.lookup]

theorem claim_C10_witness :
    qualitySetting "high" = "/printer"
    ∧ gs_command "gs" "doc.pdf" "doc_compressed.pdf" "high"
        = gs_command "gs" "doc.pdf" "doc_compressed.pdf" "printer" :=
  ⟨(claim_C10 "gs" "doc.pdf" "doc_compressed.pdf" "high" demoEng (by decide)).1,
   (claim_C10 "gs" "doc.pdf" "doc_compressed.pdf" "high" demoEng (by decide)).2.1⟩

/-- C5: a driver failure at one preset (engine non-zero exit, or any
other invocation error) never aborts the run: `compress_pdf` returns
`false` exactly in those two situations, the attempt is recorded with no
deletion (no size comparison happens), the disk is untouched, and the
loop's result is that of the remaining presets. -/
theorem claim_C5 (eng : Engine) (o : ℚ) (q : String) (rest : List String)
    (disk : Option Nat) (hfail : compress_pdf eng q = false) :
    (compress_pdf eng q = false ↔
      (∃ e, eng q = .exitNonzero e) ∨ (∃ m, eng q = .exn m))
    ∧ (runLoop eng o (q :: rest) disk).result = (runLoop eng o rest disk).result
    ∧ (runLoop eng o (q :: rest) disk).disk = (runLoop eng o rest disk).disk
    ∧ (runLoop eng o (q :: rest) disk).attempts
        = ⟨q, disk, eng q, false⟩ :: (runLoop eng o rest disk).attempts := by
  refine ⟨compress_pdf_false_iff eng q, ?_⟩
  rcases (compress_pdf_false_iff eng q).1 hfail with ⟨e, he⟩ | ⟨m, hm⟩
  · simp [runLoop, he]
  · simp [runLoop, hm]

theorem claim_C5_witness :
    (runLoop exhaustEnv.engine 2 ["printer", "ebook", "screen"] none).result
      = (runLoop exhaustEnv.engine 2 ["ebook", "screen"] none).result :=
  (claim_C5 exhaustEnv.engine 2 "printer" ["ebook", "screen"] none (by decide)).2.1

/-- C8: the run is deterministic in the engine's behavior: two
environments equal everywhere, whose engines agree on every preset of
the ordered list, produce identical runs (same result, same final disk
cell, same event trace). -/
theorem claim_C8 (env env' : Env)
    (hargv : env.argv = env'.argv)
    (hex : env.fsExists = env'.fsExists)
    (hsz : env.fsSizeBytes = env'.fsSizeBytes)
    (hv : env.versionOutcome = env'.versionOutcome)
    (hdisk : env.initialOutFile = env'.initialOutFile)
    (heng : ∀ q ∈ quality_levels, env.engine q = env'.engine q) :
    main env = main env' := by
  have hrl : ∀ o, runLoop env.engine o quality_levels env'.initialOutFile
      = runLoop env'.engine o quality_levels env'.initialOutFile :=
    fun o => runLoop_engine_congr _ _ o quality_levels env'.initialOutFile heng
  unfold main inputArg
  rw [hargv, hex, hsz, hv, hdisk]
  simp only [hrl]

theorem claim_C8_witness : main demoEnv = main demoEnv2 :=
  claim_C8 demoEnv demoEnv2 rfl rfl rfl rfl rfl (by decide)

/-- C6 counterexample: an invocation error other than
process-not-found (modeled: `subprocess.run` raising an exception that
is neither `FileNotFoundError` nor a completed run) also makes
`check_ghostscript` return failure — a third failure case beyond the two
the claim allows. -/
theorem claim_C6_counterexample :
    check_ghostscript (.exn "permission denied") = false
    ∧ VersionOutcome.exn "permission denied" ≠ VersionOutcome.notFound
    ∧ versionProcessStarted (.exn "permission denied") = false := by
  decide

/-- C6 amended: the version check fails in exactly three cases —
process not found, any other invocation exception, or a completed query
whose stripped stdout does not start with `10.04`; whenever it fails,
`main` returns right after the version query, with no compression
attempt and the disk untouched. -/
theorem claim_C6 (env : Env) (h2 : env.argv.length = 2)
    (hgs : check_ghostscript env.versionOutcome = false) :
    (∀ v, check_ghostscript v = false ↔
      v = .notFound ∨ (∃ m, v = .exn m)
        ∨ (∃ s, v = .completed s ∧ pyStartswith (pyStrip s) "10.04" = false))
    ∧ (main env).result = .engineCheckFailed
    ∧ (main env).events = [Event.versionQuery]
    ∧ (main env).disk = env.initialOutFile := by
  refine ⟨?_, ?_⟩
  · intro v
    cases v with
    | notFound => simp [check_ghostscript]
    | exn m => simp [check_ghostscript]
    | completed s =>
      unfold check_ghostscript
      cases h : pyStartswith (pyStrip s) "10.04" <;> simp [h]
  · simp [main, h2, hgs]

theorem claim_C6_witness :
    (main badVersionEnv).result = .engineCheckFailed
    ∧ (main badVersionEnv).events = [Event.versionQuery] :=
  ⟨(claim_C6 badVersionEnv (by decide) (by decide)).2.1,
   (claim_C6 badVersionEnv (by decide) (by decide)).2.2.1⟩

/-- C1 counterexample: the input `ghost.pdf` does not exist, so the
input check fails, yet the version-query subprocess was started (the
engine is installed and answered `10.04.0`): the run does not abort
before every subprocess invocation. -/
theorem claim_C1_counterexample :
    check_pdf ghostEnv.fsExists (inputArg ghostEnv) = false
    ∧ versionProcessStarted ghostEnv.versionOutcome = true
    ∧ Event.versionQuery ∈ (main ghostEnv).events
    ∧ (main ghostEnv).result = .invalidInput := by
  decide

/-- C1 amended: for an input failing the existence/extension check the
run aborts before any compression subprocess is invoked and creates no
output file — but only after the engine version query, which `main`
always performs before validating the input. -/
theorem claim_C1 (env : Env) (h2 : env.argv.length = 2)
    (hpdf : check_pdf env.fsExists (inputArg env) = false) :
    (∀ q, Event.compressCall q ∉ (main env).events)
    ∧ Event.removeFile ∉ (main env).events
    ∧ (main env).disk = env.initialOutFile
    ∧ ((main env).result = .engineCheckFailed ∨ (main env).result = .invalidInput) := by
  by_cases hgs : check_ghostscript env.versionOutcome = false
  · simp [main, h2, hgs]
  · simp [main, h2, hgs, hpdf]

theorem claim_C1_witness :
    Event.compressCall "printer" ∉ (main ghostEnv).events
    ∧ (main ghostEnv).disk = ghostEnv.initialOutFile :=
  ⟨(claim_C1 ghostEnv (by decide) (by decide)).1 "printer",
   (claim_C1 ghostEnv (by decide) (by decide)).2.2.1⟩

/-- C2: on a validated input of nonzero size, the accepted preset of the
run is exactly the first preset of the ordered list whose invocation
succeeds with an output strictly smaller than the original, and the
presets actually invoked are exactly the list up to and including that
first shrinking one — no lower preset is tried after it. -/
theorem claim_C2 (env : Env)
    (h2 : env.argv.length = 2)
    (hgs : check_ghostscript env.versionOutcome = true)
    (hpdf : check_pdf env.fsExists (inputArg env) = true)
    (ho : get_file_size env.fsSizeBytes (inputArg env) ≠ 0) :
    acceptedQ (main env).result
      = quality_levels.find?
          (shrinks env.engine (get_file_size env.fsSizeBytes (inputArg env)))
    ∧ calledPresets (main env).events
      = triedUntil
          (shrinks env.engine (get_file_size env.fsSizeBytes (inputArg env)))
          quality_levels := by
  constructor
  · have hres : (main env).result
        = (runLoop env.engine (get_file_size env.fsSizeBytes (inputArg env))
            quality_levels env.initialOutFile).result := by
      simp [main, h2, hgs, hpdf]
    rw [hres]
    exact runLoop_acceptedQ env.engine _ ho quality_levels env.initialOutFile
  · have hev : (main env).events
        = Event.versionQuery ::
          (((runLoop env.engine (get_file_size env.fsSizeBytes (inputArg env))
              quality_levels env.initialOutFile).attempts.map attemptEvents).flatten) := by
      simp [main, h2, hgs, hpdf]
    rw [hev, calledPresets_events]
    exact runLoop_attempts_qualities env.engine _ ho quality_levels env.initialOutFile

theorem claim_C2_witness :
    acceptedQ (main demoEnv).result = some "ebook"
    ∧ calledPresets (main demoEnv).events = ["printer", "ebook"] := by
  have hsize : get_file_size demoEnv.fsSizeBytes (inputArg demoEnv) = 2 := by
    norm_num [get_file_size, demoEnv, inputArg]
  have h := claim_C2 demoEnv (by decide) (by decide) (by decide)
    (by rw [hsize]; norm_num)
  rw [hsize] at h
  have he1 : demoEnv.engine "printer" = .exit0 3145728 := by decide
  have he2 : demoEnv.engine "ebook" = .exit0 1048576 := by decide
  have hq1 : shrinks demoEnv.engine 2 "printer" = false := by
    simp only [shrinks, he1]
    rw [decide_eq_false_iff_not]
    norm_num
  have hq2 : shrinks demoEnv.engine 2 "ebook" = true := by
    simp only [shrinks, he2]
    rw [decide_eq_true_eq]
    norm_num
  constructor
  · rw [h.1]
    simp [quality_levels, List.find?_cons, hq1, hq2]
  · rw [h.2]
    simp [quality_levels, triedUntil, hq1, hq2]

/-- C3 counterexample: the zero-byte `empty.pdf` passes validation, the
`printer` invocation succeeds producing a 100-byte file that is not
strictly smaller than the 0-byte original, yet the run performs no
deletion and ends with that file still on disk: the crash at the
reduction division happens before `os.remove`, so the original claim's
unconditional deletion promise is false there. -/
theorem claim_C3_counterexample :
    check_pdf zeroEnv.fsExists (inputArg zeroEnv) = true
    ∧ Event.compressCall "printer" ∈ (main zeroEnv).events
    ∧ ¬ ((100 : ℚ) / (1024 * 1024)
          < get_file_size zeroEnv.fsSizeBytes (inputArg zeroEnv))
    ∧ Event.removeFile ∉ (main zeroEnv).events
    ∧ (main zeroEnv).disk = some 100 := by
  have hgs : check_ghostscript zeroEnv.versionOutcome = true := by decide
  have hpdf : check_pdf zeroEnv.fsExists (inputArg zeroEnv) = true := by decide
  have h0 : get_file_size zeroEnv.fsSizeBytes (inputArg zeroEnv) = 0 := by
    norm_num [get_file_size, zeroEnv, inputArg]
  have hrun : runLoop zeroEnv.engine
      (get_file_size zeroEnv.fsSizeBytes (inputArg zeroEnv))
      quality_levels zeroEnv.initialOutFile
      = ⟨.crashed, some 100, [⟨"printer", none, .exit0 100, false⟩]⟩ := by
    rw [h0]
    simp [runLoop, quality_levels, zeroEnv]
  have hm : main zeroEnv
      = ⟨.crashed, some 100,
         [Event.versionQuery, Event.compressCall "printer"]⟩ := by
    have h2 : ¬ (zeroEnv.argv.length ≠ 2) := by decide
    simp [main, h2, hgs, hpdf, hrun, attemptEvents]
  refine ⟨hpdf, ?_, ?_, ?_, ?_⟩
  · rw [hm]; decide
  · rw [h0]; norm_num
  · rw [hm]; decide
  · rw [hm]

/-- C3 amended: provided the original size is nonzero (a zero original
crashes the run at the reduction division before any deletion, leaving
the rejected file on disk): starting from an empty output path, every
attempt of the loop begins with the output path empty — a rejected
output file is deleted before the next attempt begins — and every
successful attempt whose output is not strictly smaller than the
original has its file removed; the output path being a single disk
cell, at most one candidate output file exists at any point. -/
theorem claim_C3 (eng : Engine) (o : ℚ) (ho : o ≠ 0) :
    (∀ a ∈ (runLoop eng o quality_levels none).attempts, a.diskAtStart = none)
    ∧ (∀ a ∈ (runLoop eng o quality_levels none).attempts,
        ∀ n, a.outcome = .exit0 n → ¬ ((n : ℚ) / (1024 * 1024) < o) →
          a.removed = true) :=
  ⟨runLoop_diskAtStart_none eng o quality_levels,
   runLoop_rejected_removed eng o ho quality_levels none⟩

lemma runLoop_demo :
    runLoop demoEng 2 quality_levels none =
      ⟨.accepted "ebook" 1048576 50, some 1048576,
       [⟨"printer", none, .exit0 3145728, true⟩,
        ⟨"ebook", none, .exit0 1048576, false⟩]⟩ := by
  have c1 : ¬ ((3145728 : ℚ) / (1024 * 1024) < 2) := by norm_num
  have c2 : ((1048576 : ℚ) / (1024 * 1024) < 2) := by norm_num
  have c3 : ¬ ((2 : ℚ) = 0) := by norm_num
  simp [runLoop, quality_levels, demoEng, c1, c2, c3]
  norm_num

theorem claim_C3_witness :
    Attempt.removed ⟨"printer", none, .exit0 3145728, true⟩ = true
    ∧ Attempt.diskAtStart ⟨"ebook", none, .exit0 1048576, false⟩ = none :=
  ⟨(claim_C3 demoEng 2 (by norm_num)).2
      ⟨"printer", none, .exit0 3145728, true⟩
      (by rw [runLoop_demo]; simp) 3145728 rfl (by norm_num),
   (claim_C3 demoEng 2 (by norm_num)).1
      ⟨"ebook", none, .exit0 1048576, false⟩
      (by rw [runLoop_demo]; simp)⟩

/-- C4: on a validated input of nonzero size with an initially empty
output path, if no preset of the ordered list shrinks the file, the run
ends with `exhausted` carrying the advisory hints — no error is raised —
and no output file remains on disk. -/
theorem claim_C4 (env : Env)
    (h2 : env.argv.length = 2)
    (hgs : check_ghostscript env.versionOutcome = true)
    (hpdf : check_pdf env.fsExists (inputArg env) = true)
    (ho : get_file_size env.fsSizeBytes (inputArg env) ≠ 0)
    (hdisk : env.initialOutFile = none)
    (hnone : quality_levels.find?
        (shrinks env.engine (get_file_size env.fsSizeBytes (inputArg env)))
        = none) :
    (main env).result = .exhausted exhaustionHints ∧ (main env).disk = none := by
  have hres : (main env).result
      = (runLoop env.engine (get_file_size env.fsSizeBytes (inputArg env))
          quality_levels env.initialOutFile).result := by
    simp [main, h2, hgs, hpdf]
  have hd : (main env).disk
      = (runLoop env.engine (get_file_size env.fsSizeBytes (inputArg env))
          quality_levels env.initialOutFile).disk := by
    simp [main, h2, hgs, hpdf]
  rw [hres, hd, hdisk]
  exact runLoop_exhausted env.engine _ ho quality_levels hnone

theorem claim_C4_witness :
    (main exhaustEnv).result = .exhausted exhaustionHints
    ∧ (main exhaustEnv).disk = none := by
  have hsize : get_file_size exhaustEnv.fsSizeBytes (inputArg exhaustEnv) = 2 := by
    norm_num [get_file_size, exhaustEnv, inputArg]
  have he1 : exhaustEnv.engine "printer" = .exitNonzero "gs error" := by decide
  have he2 : exhaustEnv.engine "ebook" = .exit0 5242880 := by decide
  have he3 : exhaustEnv.engine "screen" = .exitNonzero "gs error" := by decide
  have hq1 : shrinks exhaustEnv.engine 2 "printer" = false := by
    simp only [shrinks, he1]
  have hq2 : shrinks exhaustEnv.engine 2 "ebook" = false := by
    simp only [shrinks, he2]
    rw [decide_eq_false_iff_not]
    norm_num
  have hq3 : shrinks exhaustEnv.engine 2 "screen" = false := by
    simp only [shrinks, he3]
  exact claim_C4 exhaustEnv (by decide) (by decide) (by decide)
    (by rw [hsize]; norm_num) rfl
    (by rw [hsize]; simp [quality_levels, List.find?_cons, hq1, hq2, hq3])

/-- C9: the reduction percentage divides by the original size with no
guard, before the acceptance test, so a run can only be division-free
when the input size is nonzero: every run on an input of nonzero size
never crashes, while the zero-byte `empty.pdf` passes the input
validator (which never looks at sizes) and its run crashes at the first
successful invocation. -/
theorem claim_C9 :
    (∀ env : Env, env.fsSizeBytes (inputArg env) ≠ 0 →
      (main env).result ≠ .crashed)
    ∧ check_pdf zeroEnv.fsExists (inputArg zeroEnv) = true
    ∧ zeroEnv.fsSizeBytes (inputArg zeroEnv) = 0
    ∧ (main zeroEnv).result = .crashed := by
  refine ⟨?_, by decide, by decide, ?_⟩
  · intro env hsz
    by_cases h2 : env.argv.length = 2
    · by_cases hgs : check_ghostscript env.versionOutcome = false
      · simp [main, h2, hgs]
      · by_cases hpdf : check_pdf env.fsExists (inputArg env) = false
        · simp [main, h2, hgs, hpdf]
        · have ho : get_file_size env.fsSizeBytes (inputArg env) ≠ 0 := by
            unfold get_file_size
            intro hc
            rcases div_eq_zero_iff.1 hc with h | h
            · exact hsz (by exact_mod_cast h)
            · norm_num at h
          have hres : (main env).result
              = (runLoop env.engine (get_file_size env.fsSizeBytes (inputArg env))
                  quality_levels env.initialOutFile).result := by
            simp [main, h2, hgs, hpdf]
          rw [hres]
          exact runLoop_not_crashed _ _ ho _ _
    · simp [main, h2]
  · have hgs : check_ghostscript zeroEnv.versionOutcome = true := by decide
    have hpdf : check_pdf zeroEnv.fsExists (inputArg zeroEnv) = true := by decide
    have hres : (main zeroEnv).result
        = (runLoop zeroEnv.engine (get_file_size zeroEnv.fsSizeBytes (inputArg zeroEnv))
            quality_levels none).result := by
      simp [main, hgs, hpdf]
      rfl
    have h0 : get_file_size zeroEnv.fsSizeBytes (inputArg zeroEnv) = 0 := by
      norm_num [get_file_size, zeroEnv, inputArg]
    rw [hres, h0]
    simp [runLoop, quality_levels, zeroEnv]

theorem claim_C9_witness : (main demoEnv).result ≠ .crashed :=
  claim_C9.1 demoEnv (by decide)

end PdfCompressor
